import Mathlib

/-!
Verification of the core logic of the Wayback4AI repository.

Strings are modelled as Lean `String`s (a wrapper around `List Char`);
the list-level workers carry the actual logic.  Each definition mirrors
one Python function of the repository:

* `_normalize_url`, `_build_wayback_url`, `_record_to_dict`,
  `get_wayback_metadata` — from `wayback4ai/wayback.py`;
* `build_archive_url`, `convert_to_id_url`, `_resolve_proxy`,
  `download_url_with_retry`, `parallel_download_urls`,
  `_crawl_url_async`, `raise_for_status` — from `wayback4ai/downloader.py`;
* `CDXRecord.from_list`, `_parse_json_response`, `iter_all` — from
  `wayback4ai/cdx/cdx_api.py`.

Network, filesystem and scheduling effects are abstracted: a fetch
attempt is an element of `Except PyErr CrawlResponse` supplied as input,
the index service is a sequence of responses, and the `joblib` pool is
modelled by its documented contract (results come back in task order).
-/

/-- Whitespace set of Python `str.strip` (Unicode whitespace). -/
def isPySpace (c : Char) : Bool :=
  let n := c.toNat
  (9 ≤ n && n ≤ 13) || (28 ≤ n && n ≤ 32) || n == 133 || n == 160 ||
  n == 0x1680 || (0x2000 ≤ n && n ≤ 0x200a) || n == 0x2028 || n == 0x2029 ||
  n == 0x202f || n == 0x205f || n == 0x3000

/-- List-level model of Python `str.strip()`: drop whitespace from both ends. -/
def stripL (l : List Char) : List Char :=
  ((l.dropWhile isPySpace).reverse.dropWhile isPySpace).reverse

/-- String-level `str.strip()`. -/
def pyStrip (s : String) : String :=
  String.mk (stripL s.data)

/-- Model of Python `str.startswith`: `isPre p l` holds when `p` is a leading part of `l`. -/
def isPre : List Char → List Char → Bool
  | [], _ => true
  | _ :: _, [] => false
  | c :: p, d :: l => c == d && isPre p l

/-- The scheme test of `_normalize_url`: `startswith(('http://', 'https://'))`. -/
def startsHttp (l : List Char) : Bool :=
  isPre (("http://").toList) l || isPre (("https://").toList) l

/-- Embedding of `_normalize_url` (wayback.py): strip, then prepend
the https scheme when no scheme is present (`normalized` inlined as `pyStrip url`). -/
def _normalize_url (url : String) : String :=
  if startsHttp (pyStrip url).data then pyStrip url
  else ("https://") ++ pyStrip url

/- Helper lemmas about `stripL`. -/

theorem dropWhile_eq_self_of_head? {p : Char → Bool} {l : List Char}
    (h : ∀ c, l.head? = some c → p c = false) : l.dropWhile p = l := by
  cases l with
  | nil => rfl
  | cons a t => simp [List.dropWhile_cons, h a rfl]

theorem getLast?_dropWhile_ne_nil {p : Char → Bool} {l : List Char}
    (h : l.dropWhile p ≠ []) : (l.dropWhile p).getLast? = l.getLast? := by
  obtain ⟨z, hz⟩ := List.dropWhile_suffix (l := l) p
  conv_rhs => rw [← hz]
  rw [List.getLast?_append]
  cases hg : (l.dropWhile p).getLast? with
  | none => exact absurd (List.getLast?_eq_none_iff.mp hg) h
  | some c => rfl

theorem reverse_stripL (l : List Char) :
    (stripL l).reverse = (l.dropWhile isPySpace).reverse.dropWhile isPySpace := by
  simp [stripL]

theorem dropWhile_reverse_stripL (l : List Char) :
    ((stripL l).reverse).dropWhile isPySpace = (stripL l).reverse := by
  rw [reverse_stripL, List.dropWhile_idempotent]

theorem dropWhile_stripL (l : List Char) :
    (stripL l).dropWhile isPySpace = stripL l := by
  apply dropWhile_eq_self_of_head?
  intro c hc
  by_cases hnil : (l.dropWhile isPySpace).reverse.dropWhile isPySpace = []
  · simp [stripL, hnil] at hc
  · have h1 : (stripL l).head? =
        ((l.dropWhile isPySpace).reverse.dropWhile isPySpace).getLast? := by
      rw [stripL, List.head?_reverse]
    rw [getLast?_dropWhile_ne_nil hnil, List.getLast?_reverse] at h1
    have h2 := List.head?_dropWhile_not isPySpace l
    rw [hc] at h1
    rw [← h1] at h2
    exact h2

theorem stripL_idem (l : List Char) : stripL (stripL l) = stripL l := by
  have h1 : stripL (stripL l) =
      (((stripL l).dropWhile isPySpace).reverse.dropWhile isPySpace).reverse := rfl
  rw [h1, dropWhile_stripL, dropWhile_reverse_stripL]
  simp [stripL]

theorem isPre_append (a b : List Char) : isPre a (a ++ b) = true := by
  induction a with
  | nil => rfl
  | cons c t ih => simp [isPre, ih]

/-- The https scheme characters. -/
def httpsL : List Char := ("https://").toList

theorem dropWhile_httpsL_append (x : List Char) :
    (httpsL ++ x).dropWhile isPySpace = httpsL ++ x := by
  apply dropWhile_eq_self_of_head?
  intro c hc
  simp [httpsL] at hc
  rw [← hc]
  decide

theorem stripL_httpsL_append (l : List Char) :
    stripL (httpsL ++ stripL l) = httpsL ++ stripL l := by
  have hfront := dropWhile_httpsL_append (stripL l)
  rw [stripL, hfront, List.reverse_append]
  by_cases hx : stripL l = []
  · rw [hx]
    decide
  · rw [List.dropWhile_append]
    have hrev : ((stripL l).reverse).dropWhile isPySpace = (stripL l).reverse :=
      dropWhile_reverse_stripL l
    rw [hrev]
    have hne : ((stripL l).reverse).isEmpty = false := by
      simp [List.isEmpty_iff, hx]
    rw [hne]
    simp

theorem data_append (a b : String) : (a ++ b).data = a.data ++ b.data := rfl

theorem pyStrip_pyStrip (s : String) : pyStrip (pyStrip s) = pyStrip s := by
  simp [pyStrip, stripL_idem]

/-- Claim C10: `_normalize_url` leaves an already-schemed stripped URL at its
stripped form, prepends the https scheme otherwise, and is idempotent. -/
theorem normalize_url_cases_and_idem (u : String) :
    _normalize_url (_normalize_url u) = _normalize_url u ∧
    _normalize_url u =
      (if startsHttp (pyStrip u).data then pyStrip u else ("https://") ++ pyStrip u) := by
  refine ⟨?_, rfl⟩
  by_cases h : startsHttp (pyStrip u).data
  · have h1 : _normalize_url u = pyStrip u := by simp [_normalize_url, h]
    rw [h1]
    have h2 : pyStrip (pyStrip u) = pyStrip u := pyStrip_pyStrip u
    simp [_normalize_url, h2, h]
  · have h1 : _normalize_url u = ("https://") ++ pyStrip u := by
      simp [_normalize_url, h]
    rw [h1]
    have hdata : (("https://" : String) ++ pyStrip u).data = httpsL ++ stripL u.data := by
      rw [data_append]; rfl
    have hstrip : pyStrip (("https://") ++ pyStrip u) = ("https://") ++ pyStrip u := by
      show String.mk (stripL (("https://" : String) ++ pyStrip u).data) = _
      rw [hdata, stripL_httpsL_append]
      show String.mk (("https://" : String).data ++ (pyStrip u).data) = _
      rfl
    have hstart : startsHttp (("https://" : String) ++ pyStrip u).data = true := by
      rw [hdata]
      simp [startsHttp]
      right
      exact isPre_append httpsL (stripL u.data)
    show (if startsHttp (pyStrip (("https://") ++ pyStrip u)).data then
        pyStrip (("https://") ++ pyStrip u)
      else ("https://") ++ pyStrip (("https://") ++ pyStrip u)) = ("https://") ++ pyStrip u
    rw [hstrip]
    rw [if_pos hstart]

/- Archive URL building and conversion (downloader.py). -/

/-- The fixed Wayback URL stem of `build_archive_url` and the regex in
`convert_to_id_url`. -/
def webArchiveBase : List Char := ("https://web.archive.org/web/").toList

/-- Character class of the regex fragment matching the mode letters. -/
def isModeChar (c : Char) : Bool :=
  (97 ≤ c.toNat && c.toNat ≤ 122) || c == '_'

/-- Embedding of `build_archive_url` (downloader.py): the fast-fetch archive URL. -/
def build_archive_url (timestamp target_url : String) : String :=
  ("https://web.archive.org/web/") ++ timestamp ++ ("id_/") ++ target_url

/-- Matcher for the Python regex used by `convert_to_id_url`.  The pattern is
anchored at the start only; fourteen digit characters form the timestamp,
a run of lower-case letters and underscores forms the mode, then a slash,
then at least one character other than a line feed (the dot of the regex
does not cross a line feed, and trailing input after the match is ignored). -/
def waybackMatch (s : List Char) : Option (List Char × List Char × List Char) :=
  if s.take webArchiveBase.length = webArchiveBase then
    if ((s.drop webArchiveBase.length).take 14).length = 14 ∧
        ((s.drop webArchiveBase.length).take 14).all Char.isDigit = true then
      match ((s.drop webArchiveBase.length).drop 14).dropWhile isModeChar with
      | '/' :: tail =>
        if (tail.takeWhile (fun c => c != '\n')).isEmpty then none
        else some ((s.drop webArchiveBase.length).take 14,
          ((s.drop webArchiveBase.length).drop 14).takeWhile isModeChar,
          tail.takeWhile (fun c => c != '\n'))
      | _ => none
    else none
  else none

/-- Embedding of `convert_to_id_url` (downloader.py): rewrite any Wayback URL
to the fast-fetch form, or fail with a format error. -/
def convert_to_id_url (wayback_url : String) : Except String String :=
  match waybackMatch wayback_url.data with
  | some (ts, _mode, target) =>
      Except.ok (String.mk (webArchiveBase ++ ts ++ ("id_/").toList ++ target))
  | none => Except.error ("Invalid Wayback URL format")

/-- The archive-URL shape accepted by `convert_to_id_url`, stated structurally:
the fixed stem, a 14-digit timestamp, a run of mode characters, a slash, and a
target whose first character exists and is not a line feed. -/
def WaybackShape (s : List Char) : Prop :=
  ∃ ts mode c t, s = webArchiveBase ++ ts ++ mode ++ '/' :: c :: t ∧
    ts.length = 14 ∧ (∀ d ∈ ts, d.isDigit = true) ∧
    (∀ d ∈ mode, isModeChar d = true) ∧ c ≠ '\n'

theorem string_eq_of_data {a b : String} (h : a.data = b.data) : a = b := by
  cases a
  cases b
  exact congrArg String.mk h

theorem takeWhile_append_not (p : Char → Bool) (xs : List Char) (y : Char) (ys : List Char)
    (hxs : ∀ x ∈ xs, p x = true) (hy : p y = false) :
    List.takeWhile p (xs ++ y :: ys) = xs := by
  induction xs with
  | nil => simp [List.takeWhile_cons, hy]
  | cons a t ih =>
    have ha : p a = true := hxs a (by simp)
    have ht : ∀ x ∈ t, p x = true := fun x hx => hxs x (by simp [hx])
    simp [List.takeWhile_cons, ha, ih ht]

theorem dropWhile_append_not (p : Char → Bool) (xs : List Char) (y : Char) (ys : List Char)
    (hxs : ∀ x ∈ xs, p x = true) (hy : p y = false) :
    List.dropWhile p (xs ++ y :: ys) = y :: ys := by
  induction xs with
  | nil => simp [List.dropWhile_cons, hy]
  | cons a t ih =>
    have ha : p a = true := hxs a (by simp)
    have ht : ∀ x ∈ t, p x = true := fun x hx => hxs x (by simp [hx])
    simp [List.dropWhile_cons, ha, ih ht]

theorem takeWhile_mode_seg (l : List Char) :
    List.takeWhile isModeChar ('i' :: 'd' :: '_' :: '/' :: l) = ['i', 'd', '_'] :=
  takeWhile_append_not isModeChar ['i', 'd', '_'] '/' l (by decide) (by decide)

theorem dropWhile_mode_seg (l : List Char) :
    List.dropWhile isModeChar ('i' :: 'd' :: '_' :: '/' :: l) = '/' :: l :=
  dropWhile_append_not isModeChar ['i', 'd', '_'] '/' l (by decide) (by decide)

theorem waybackMatch_build (ts tgt : List Char) (h14 : ts.length = 14)
    (hdig : ts.all Char.isDigit = true) (hne : tgt ≠ []) (hnl : '\n' ∉ tgt) :
    waybackMatch (webArchiveBase ++ (ts ++ ('i' :: 'd' :: '_' :: '/' :: tgt))) =
      some (ts, ['i', 'd', '_'], tgt) := by
  have h1 := List.take_left webArchiveBase (ts ++ ('i' :: 'd' :: '_' :: '/' :: tgt))
  have h2 := List.drop_left webArchiveBase (ts ++ ('i' :: 'd' :: '_' :: '/' :: tgt))
  have h3 : (ts ++ ('i' :: 'd' :: '_' :: '/' :: tgt)).take 14 = ts := List.take_left' h14
  have h4 : (ts ++ ('i' :: 'd' :: '_' :: '/' :: tgt)).drop 14 = 'i' :: 'd' :: '_' :: '/' :: tgt :=
    List.drop_left' h14
  have h7 : tgt.takeWhile (fun c => c != '\n') = tgt := by
    rw [List.takeWhile_eq_self_iff]
    intro x hx
    have hxn : x ≠ '\n' := fun he => hnl (he ▸ hx)
    simp [hxn]
  have h8 : tgt.isEmpty = false := by simp [List.isEmpty_iff, hne]
  simp only [waybackMatch, h1, h2, h3, h4, takeWhile_mode_seg, dropWhile_mode_seg,
    h7, h8, h14, hdig, if_true, eq_self_iff_true, and_self, Bool.false_eq_true, if_false]

/-- Claim C2 (amended): for a 14-digit timestamp and a non-empty target with no
line feed, converting the built fast-fetch URL returns it unchanged. -/
theorem convert_build_roundtrip (ts tgt : String)
    (h14 : ts.data.length = 14) (hdig : ts.data.all Char.isDigit = true)
    (hne : tgt.data ≠ []) (hnl : '\n' ∉ tgt.data) :
    convert_to_id_url (build_archive_url ts tgt) = Except.ok (build_archive_url ts tgt) := by
  have hdata : (build_archive_url ts tgt).data =
      webArchiveBase ++ (ts.data ++ ('i' :: 'd' :: '_' :: '/' :: tgt.data)) := by
    show ((("https://web.archive.org/web/" : String) ++ ts) ++ ("id_/") ++ tgt).data = _
    rw [data_append, data_append, data_append]
    simp [webArchiveBase, List.append_assoc]
  unfold convert_to_id_url
  rw [hdata, waybackMatch_build ts.data tgt.data h14 hdig hne hnl]
  show Except.ok (String.mk (webArchiveBase ++ ts.data ++ ('i' :: 'd' :: '_' :: '/' :: []) ++ tgt.data)) =
      Except.ok (build_archive_url ts tgt)
  congr 1


/-- Claim C2 witness: the round-trip at a concrete timestamp and target. -/
theorem convert_build_roundtrip_witness :
    convert_to_id_url (build_archive_url ("20260101020758") ("https://a16z.com/")) =
      Except.ok (build_archive_url ("20260101020758") ("https://a16z.com/")) :=
  convert_build_roundtrip ("20260101020758") ("https://a16z.com/")
    (by decide) (by decide) (by decide) (by decide)

/-- Claim C2 counterexample: the target string of two characters separated by a
line feed is non-empty, the timestamp is a valid 14-digit timestamp, yet the
conversion of the built URL is not the built URL (the dot of the Python regex
stops at the line feed, so the target is truncated). -/
theorem convert_build_newline_counterexample :
    ("a\nb" : String).data ≠ [] ∧
    ("20260101020758" : String).data.length = 14 ∧
    ("20260101020758" : String).data.all Char.isDigit = true ∧
    convert_to_id_url (build_archive_url ("20260101020758") ("a\nb")) ≠
      Except.ok (build_archive_url ("20260101020758") ("a\nb")) := by
  refine ⟨by decide, by decide, by decide, ?_⟩
  intro hcontra
  have hval : convert_to_id_url (build_archive_url ("20260101020758") ("a\nb")) =
      Except.ok ("https://web.archive.org/web/20260101020758id_/a") := by rfl
  rw [hval] at hcontra
  have h2 : ("https://web.archive.org/web/20260101020758id_/a" : String) =
      build_archive_url ("20260101020758") ("a\nb") := by
    injection hcontra
  exact absurd h2 (by decide)


theorem waybackMatch_some_shape {l : List Char} {v : List Char × List Char × List Char}
    (h : waybackMatch l = some v) : WaybackShape l := by
  unfold waybackMatch at h
  split at h
  next hc1 =>
    split at h
    next hc2 =>
      split at h
      next tail heq =>
        split at h
        next hemp => exact absurd h (by simp)
        next hemp =>
          rcases tail with _ | ⟨c, t⟩
          · simp at hemp
          · by_cases hcn : c = '\n'
            · subst hcn
              simp [List.takeWhile_cons] at hemp
            · refine ⟨(l.drop webArchiveBase.length).take 14,
                ((l.drop webArchiveBase.length).drop 14).takeWhile isModeChar,
                c, t, ?_, hc2.1, ?_, ?_, hcn⟩
              · have e1 : l = webArchiveBase ++ l.drop webArchiveBase.length := by
                  conv_lhs => rw [← List.take_append_drop webArchiveBase.length l]
                  rw [hc1]
                have e2 : l.drop webArchiveBase.length =
                    (l.drop webArchiveBase.length).take 14 ++
                      (l.drop webArchiveBase.length).drop 14 :=
                  (List.take_append_drop 14 _).symm
                have e3 : (l.drop webArchiveBase.length).drop 14 =
                    ((l.drop webArchiveBase.length).drop 14).takeWhile isModeChar ++
                      ('/' :: c :: t) := by
                  conv_lhs => rw [← List.takeWhile_append_dropWhile (p := isModeChar)
                    (l := (l.drop webArchiveBase.length).drop 14)]
                  rw [heq]
                conv_lhs => rw [e1]
                conv_lhs => rw [e2]
                conv_lhs => rw [e3]
                simp [List.append_assoc]
              · exact fun d hd => (List.all_eq_true.mp hc2.2) d hd
              · exact fun d hd => List.mem_takeWhile_imp hd
      next hwild => exact absurd h (by simp)
    next hc2 => exact absurd h (by simp)
  next hc1 => exact absurd h (by simp)

theorem shape_waybackMatch_isSome {l : List Char} (h : WaybackShape l) :
    (waybackMatch l).isSome = true := by
  obtain ⟨ts, mode, c, t, hl, h14, hdig, hmode, hc⟩ := h
  subst hl
  have hassoc : webArchiveBase ++ ts ++ mode ++ '/' :: c :: t =
      webArchiveBase ++ (ts ++ (mode ++ '/' :: c :: t)) := by
    simp [List.append_assoc]
  rw [hassoc]
  have h1 := List.take_left webArchiveBase (ts ++ (mode ++ '/' :: c :: t))
  have h2 := List.drop_left webArchiveBase (ts ++ (mode ++ '/' :: c :: t))
  have h3 : (ts ++ (mode ++ '/' :: c :: t)).take 14 = ts := List.take_left' h14
  have h4 : (ts ++ (mode ++ '/' :: c :: t)).drop 14 = mode ++ '/' :: c :: t :=
    List.drop_left' h14
  have h5 : List.takeWhile isModeChar (mode ++ '/' :: c :: t) = mode :=
    takeWhile_append_not isModeChar mode '/' (c :: t) hmode (by decide)
  have h6 : List.dropWhile isModeChar (mode ++ '/' :: c :: t) = '/' :: c :: t :=
    dropWhile_append_not isModeChar mode '/' (c :: t) hmode (by decide)
  have hdigB : ts.all Char.isDigit = true := List.all_eq_true.mpr hdig
  have hcn : (c != '\n') = true := by simp [hc]
  have h7 : ((c :: t).takeWhile (fun d => d != '\n')).isEmpty = false := by
    simp [List.takeWhile_cons, hcn]
  simp only [waybackMatch, h1, h2, h3, h4, h5, h6, h7, h14, hdigB, if_true,
    eq_self_iff_true, and_self, Bool.false_eq_true, if_false, Option.isSome_some]

/-- Claim C8: `convert_to_id_url` succeeds exactly on inputs of the archive-URL
shape (fixed stem, exactly fourteen digit characters, mode letters, slash,
non-empty target) and in particular rejects the ten-digit-timestamp input of
the spec with a format error. -/
theorem convert_to_id_url_error_characterization :
    (∀ s : String, (convert_to_id_url s).isOk = true ↔ WaybackShape s.data) ∧
    (convert_to_id_url ("https://web.archive.org/web/2026010102/https://x.com/")).isOk
      = false := by
  constructor
  · intro s
    constructor
    · intro hok
      unfold convert_to_id_url at hok
      cases hm : waybackMatch s.data with
      | none => rw [hm] at hok; exact absurd hok (by simp [Except.isOk, Except.toBool])
      | some v => exact waybackMatch_some_shape hm
    · intro hsh
      have hs := shape_waybackMatch_isSome hsh
      unfold convert_to_id_url
      cases hm : waybackMatch s.data with
      | none => rw [hm] at hs; exact absurd hs (by simp)
      | some v =>
        obtain ⟨ts, mode, tgt⟩ := v
        simp [Except.isOk, Except.toBool]
  · decide

/- CDX index client (cdx_api.py). -/

/-- Embedding of the `CDXRecord` dataclass: the seven standard string fields
with empty-string defaults, the five optional fields, and the open `extra`
mapping (modelled as an association list in insertion order, as a Python
dict preserves insertion order). -/
structure CDXRecord where
  urlkey : String := ""
  timestamp : String := ""
  original : String := ""
  mimetype : String := ""
  statuscode : String := ""
  digest : String := ""
  length : String := ""
  filename : Option String := none
  offset : Option String := none
  dupecount : Option String := none
  groupcount : Option String := none
  endtimestamp : Option String := none
  extra : List (String × String) := []
deriving DecidableEq

/-- ASCII lowering, modelling `str.lower()` on field names. -/
def asciiLower (s : String) : String := String.mk (s.data.map Char.toLower)

/-- Assignment into the `extra` dict: overwrite an existing key in place,
append a new key. -/
def updateAssoc : List (String × String) → String → String → List (String × String)
  | [], k, v => [(k, v)]
  | (k0, v0) :: rest, k, v =>
      if k0 = k then (k, v) :: rest else (k0, v0) :: updateAssoc rest k v

/-- One `setattr`/`extra` step of `CDXRecord.from_list`: a field name naming
one of the twelve dataclass data attributes (after lowering) sets that
attribute, any other name goes into `extra` under the original name.
(The Python `hasattr` check would also accept method and `extra` attribute
names; such degenerate field names are outside this model.) -/
def CDXRecord.setAttr (r : CDXRecord) (name v : String) : CDXRecord :=
  if asciiLower name = ("urlkey") then { r with urlkey := v }
  else if asciiLower name = ("timestamp") then { r with timestamp := v }
  else if asciiLower name = ("original") then { r with original := v }
  else if asciiLower name = ("mimetype") then { r with mimetype := v }
  else if asciiLower name = ("statuscode") then { r with statuscode := v }
  else if asciiLower name = ("digest") then { r with digest := v }
  else if asciiLower name = ("length") then { r with length := v }
  else if asciiLower name = ("filename") then { r with filename := some v }
  else if asciiLower name = ("offset") then { r with offset := some v }
  else if asciiLower name = ("dupecount") then { r with dupecount := some v }
  else if asciiLower name = ("groupcount") then { r with groupcount := some v }
  else if asciiLower name = ("endtimestamp") then { r with endtimestamp := some v }
  else { r with extra := updateAssoc r.extra name v }

/-- Loop of `CDXRecord.from_list`: for each field name at position `i`,
set the attribute when the row has a value at `i`, else skip. -/
def fromListAux (fields : List String) : CDXRecord → Nat → List String → CDXRecord
  | r, _, [] => r
  | r, i, name :: rest =>
      fromListAux fields
        (match fields[i]? with
          | some v => r.setAttr name v
          | none => r)
        (i + 1) rest

/-- Embedding of `CDXRecord.from_list`. -/
def CDXRecord.from_list (fields field_names : List String) : CDXRecord :=
  fromListAux fields {} 0 field_names

/-- Default seven-field list of the CDX client. -/
def DEFAULT_FIELDS : List String :=
  [("urlkey"), ("timestamp"), ("original"), ("mimetype"),
   ("statuscode"), ("digest"), ("length")]

/-- Embedding of `CDXResponse` (records, field names, optional resume key;
`num_pages` and the raw text, which are diagnostics only, are omitted). -/
structure CDXResponse where
  records : List CDXRecord
  field_names : List String
  resume_key : Option String := none
deriving DecidableEq

/-- Loop body of `_parse_json_response` over the rows after the header:
an empty row is skipped, a single-element row is stored as the resume key
when the whole decoded response has more than two rows, and every other
row becomes a record.  `n` is the length of the whole decoded response
(`len(data)` in the source, constant during the loop). -/
def parseRowsAux (n : Nat) (field_names : List String) :
    List (List String) → List CDXRecord × Option String → List CDXRecord × Option String
  | [], acc => acc
  | row :: rest, acc =>
      if row.isEmpty then parseRowsAux n field_names rest acc
      else if row.length = 1 ∧ 2 < n then
        parseRowsAux n field_names rest (acc.1, row.head?)
      else
        parseRowsAux n field_names rest
          (acc.1 ++ [CDXRecord.from_list row field_names], acc.2)

/-- Embedding of `CDXClient._parse_json_response`, taking the decoded JSON
array of rows (JSON decoding itself is abstracted; a decode failure raises
before this logic runs).  Row 0 is the field-name header. -/
def _parse_json_response (data : List (List String)) : CDXResponse :=
  match data with
  | [] => { records := [], field_names := DEFAULT_FIELDS, resume_key := none }
  | field_names :: rest =>
      { records := (parseRowsAux data.length field_names rest ([], none)).1,
        field_names := field_names,
        resume_key := (parseRowsAux data.length field_names rest ([], none)).2 }

/-- A row kept as a data record by the JSON parser: non-empty, and not a
single-element row of a response with more than two rows. -/
def keepRow (n : Nat) (row : List String) : Bool :=
  !row.isEmpty && !(row.length == 1 && decide (2 < n))

/-- A row recognized as a resume-key row by the JSON parser. -/
def isKeyRow (n : Nat) (row : List String) : Bool :=
  row.length == 1 && decide (2 < n)

theorem parseRowsAux_spec (n : Nat) (fns : List String) (rows : List (List String)) :
    ∀ (recs : List CDXRecord) (rk : Option String),
      parseRowsAux n fns rows (recs, rk) =
        (recs ++ (rows.filter (keepRow n)).map (fun row => CDXRecord.from_list row fns),
          match (rows.filter (isKeyRow n)).getLast? with
          | some row => row.head?
          | none => rk) := by
  induction rows with
  | nil => intro recs rk; simp [parseRowsAux]
  | cons row rest ih =>
    intro recs rk
    by_cases hemp : row.isEmpty = true
    · have hrow : row = [] := List.isEmpty_iff.mp hemp
      subst hrow
      show parseRowsAux n fns rest (recs, rk) = _
      rw [ih]
      simp [keepRow, isKeyRow, List.filter_cons]
    · by_cases hkey : row.length = 1 ∧ 2 < n
      · have h1 : parseRowsAux n fns (row :: rest) (recs, rk) =
            parseRowsAux n fns rest (recs, row.head?) := by
          simp [parseRowsAux, hemp, hkey]
        rw [h1, ih]
        have hkeep : keepRow n row = false := by
          simp [keepRow, hemp, hkey.1, hkey.2]
        have hkeyB : isKeyRow n row = true := by
          simp [isKeyRow, hkey.1, hkey.2]
        rw [List.filter_cons, hkeep, List.filter_cons, hkeyB]
        simp only [if_false, if_true, Bool.false_eq_true, eq_self_iff_true]
        rw [List.getLast?_cons]
        cases hlast : (List.filter (isKeyRow n) rest).getLast? with
        | none => simp
        | some r2 => simp
      · have hemp' : row.isEmpty = false := Bool.eq_false_iff.mpr hemp
        have h2 : (row.length == 1 && decide (2 < n)) = false := by
          by_cases hl : row.length = 1
          · have hn : ¬(2 < n) := fun hn' => hkey ⟨hl, hn'⟩
            simp [hl, hn]
          · simp [hl]
        have h1 : parseRowsAux n fns (row :: rest) (recs, rk) =
            parseRowsAux n fns rest (recs ++ [CDXRecord.from_list row fns], rk) := by
          simp [parseRowsAux, hemp, hkey]
        rw [h1, ih]
        have hkeep : keepRow n row = true := by
          rw [keepRow, hemp', h2]
          rfl
        have hkeyB : isKeyRow n row = false := by
          rw [isKeyRow]
          exact h2
        rw [List.filter_cons, hkeep, List.filter_cons, hkeyB]
        simp [List.append_assoc]

/-- Claim C3 (amended): after the header row, the records of
`_parse_json_response` are exactly the rows that are non-empty and not
single-element-with-more-than-two-total-rows, in order; the resume key is the
head of the last single-element row and is present exactly when the whole
response (header included) has more than two rows and such a row exists;
resume-key rows and empty rows are never counted in the record count. -/
theorem parse_json_response_characterization (field_names : List String)
    (rest : List (List String)) :
    (_parse_json_response (field_names :: rest)).records =
      (rest.filter (keepRow (field_names :: rest).length)).map
        (fun row => CDXRecord.from_list row field_names) ∧
    (_parse_json_response (field_names :: rest)).resume_key =
      (match (rest.filter (isKeyRow (field_names :: rest).length)).getLast? with
        | some row => row.head?
        | none => none) ∧
    (_parse_json_response (field_names :: rest)).records.length =
      (rest.filter (keepRow (field_names :: rest).length)).length := by
  have h := parseRowsAux_spec (field_names :: rest).length field_names rest [] none
  refine ⟨?_, ?_, ?_⟩
  · show (parseRowsAux (field_names :: rest).length field_names rest ([], none)).1 = _
    rw [h]
    simp
  · show (parseRowsAux (field_names :: rest).length field_names rest ([], none)).2 = _
    rw [h]
  · show (parseRowsAux (field_names :: rest).length field_names rest ([], none)).1.length = _
    rw [h]
    simp

/-- Claim C3 counterexample: a response whose rows are the header, exactly one
data row, and one single-element row.  Only one data row exists, yet the
single-element row is recognized and stored as the resume key (because the
code tests the total row count of the response, not the data-row count). -/
theorem parse_json_single_data_row_counterexample :
    (_parse_json_response
      [[("urlkey"), ("timestamp"), ("original"), ("mimetype"),
        ("statuscode"), ("digest"), ("length")],
       [("k"), ("20200101000000"), ("u"), ("t"), ("200"), ("d"), ("1")],
       [("RKEY")]]).resume_key = some ("RKEY") ∧
    (_parse_json_response
      [[("urlkey"), ("timestamp"), ("original"), ("mimetype"),
        ("statuscode"), ("digest"), ("length")],
       [("k"), ("20200101000000"), ("u"), ("t"), ("200"), ("d"), ("1")],
       [("RKEY")]]).records.length = 1 := by
  constructor
  · rfl
  · rfl

/- Snapshot metadata aggregation (wayback.py). -/

/-- Python `a or b` on strings: `b` when `a` is empty. -/
def pyOrStr (a b : String) : String := if a.isEmpty then b else a

/-- Embedding of `_build_wayback_url` (wayback.py). -/
def _build_wayback_url (timestamp original_url : String) : String :=
  ("https://web.archive.org/web/") ++ timestamp ++ ("/") ++ original_url

/-- Snapshot dictionary produced by `_record_to_dict`. -/
structure SnapshotDict where
  wayback_url : String
  timestamp : String
  original_url : String
  mimetype : String
  statuscode : String
  digest : String
  length : String
  year : String
  date : String
deriving DecidableEq

/-- Embedding of `_record_to_dict` (wayback.py). -/
def _record_to_dict (record : CDXRecord) (normalized_url : String) : SnapshotDict :=
  { wayback_url := _build_wayback_url record.timestamp normalized_url,
    timestamp := record.timestamp,
    original_url := normalized_url,
    mimetype := pyOrStr record.mimetype (""),
    statuscode := pyOrStr record.statuscode (""),
    digest := pyOrStr record.digest (""),
    length := pyOrStr record.length (""),
    year := if 4 ≤ record.timestamp.length then record.timestamp.take 4 else (""),
    date := if 8 ≤ record.timestamp.length then record.timestamp.take 8
      else record.timestamp }

/-- Result dictionary of `get_wayback_metadata`. -/
structure WaybackMetadata where
  url : String
  snapshots_count : Nat
  snapshots : List SnapshotDict
  latest : Option SnapshotDict
  oldest : Option SnapshotDict
deriving DecidableEq

/-- Embedding of `get_wayback_metadata` (wayback.py), taking the records of
the CDX search response as input (the network call, its retry wrapper, and
the raised-after-retries errors are outside this pure aggregation step).
`snapshots[-1]`/`snapshots[0]` guarded by emptiness are `getLast?`/`head?`. -/
def get_wayback_metadata (url : String) (response : List CDXRecord) : WaybackMetadata :=
  { url := _normalize_url url,
    snapshots_count := ((response.filter (fun r => !r.timestamp.isEmpty)).map
      (fun r => _record_to_dict r (_normalize_url url))).length,
    snapshots := (response.filter (fun r => !r.timestamp.isEmpty)).map
      (fun r => _record_to_dict r (_normalize_url url)),
    latest := ((response.filter (fun r => !r.timestamp.isEmpty)).map
      (fun r => _record_to_dict r (_normalize_url url))).getLast?,
    oldest := ((response.filter (fun r => !r.timestamp.isEmpty)).map
      (fun r => _record_to_dict r (_normalize_url url))).head? }

/-- Claim C5: the snapshot list is exactly the records with non-empty
timestamp, in order, mapped to their dictionaries; the count is its length;
oldest is the first and latest the last element (stated through positional
indexing), both absent on an empty list; in particular one empty-timestamp
record plus one valid record yields count 1, and on an ascending 3-record
response oldest is the dictionary of the first record and latest the
dictionary of the third. -/
theorem get_wayback_metadata_spec (url : String) (response : List CDXRecord) :
    (get_wayback_metadata url response).snapshots =
      (response.filter (fun r => !r.timestamp.isEmpty)).map
        (fun r => _record_to_dict r (_normalize_url url)) ∧
    (get_wayback_metadata url response).snapshots_count =
      (get_wayback_metadata url response).snapshots.length ∧
    (get_wayback_metadata url response).oldest =
      (get_wayback_metadata url response).snapshots[0]? ∧
    (get_wayback_metadata url response).latest =
      (get_wayback_metadata url response).snapshots[
        (get_wayback_metadata url response).snapshots.length - 1]? ∧
    ((get_wayback_metadata url response).snapshots = [] →
      (get_wayback_metadata url response).oldest = none ∧
      (get_wayback_metadata url response).latest = none) ∧
    (get_wayback_metadata ("https://a16z.com/")
      [{ timestamp := ("") }, { timestamp := ("20200101000000") }]).snapshots_count = 1 ∧
    (get_wayback_metadata ("https://a16z.com/")
      [{ timestamp := ("19990101000000") }, { timestamp := ("20100101000000") },
       { timestamp := ("20200101000000") }]).oldest =
      some (_record_to_dict { timestamp := ("19990101000000") }
        (_normalize_url ("https://a16z.com/"))) ∧
    (get_wayback_metadata ("https://a16z.com/")
      [{ timestamp := ("19990101000000") }, { timestamp := ("20100101000000") },
       { timestamp := ("20200101000000") }]).latest =
      some (_record_to_dict { timestamp := ("20200101000000") }
        (_normalize_url ("https://a16z.com/"))) := by
  refine ⟨rfl, rfl, ?_, ?_, ?_, ?_, ?_, ?_⟩
  · show ((response.filter (fun r => !r.timestamp.isEmpty)).map
      (fun r => _record_to_dict r (_normalize_url url))).head? = _
    rw [List.head?_eq_getElem?]
    rfl
  · show ((response.filter (fun r => !r.timestamp.isEmpty)).map
      (fun r => _record_to_dict r (_normalize_url url))).getLast? = _
    rw [List.getLast?_eq_getElem?]
    rfl
  · intro h
    constructor
    · show ((response.filter (fun r => !r.timestamp.isEmpty)).map
        (fun r => _record_to_dict r (_normalize_url url))).head? = none
      rw [show ((response.filter (fun r => !r.timestamp.isEmpty)).map
        (fun r => _record_to_dict r (_normalize_url url))) = [] from h]
      rfl
    · show ((response.filter (fun r => !r.timestamp.isEmpty)).map
        (fun r => _record_to_dict r (_normalize_url url))).getLast? = none
      rw [show ((response.filter (fun r => !r.timestamp.isEmpty)).map
        (fun r => _record_to_dict r (_normalize_url url))) = [] from h]
      rfl
  · rfl
  · rfl
  · rfl

/- Resilient fetching (downloader.py). -/

/-- Python `a or b` for an optional numeric status: `b` when `a` is absent
or zero (both are falsy in Python). -/
def pyOrNat (a : Option Nat) (b : Nat) : Nat :=
  match a with
  | none => b
  | some 0 => b
  | some n => n

/-- Embedding of the `_Crawl4AIResponse` adapter: body text, status code and
headers.  `text`/`content` are views of `html`. -/
structure Crawl4AIResponse where
  html : String
  status_code : Nat
  response_headers : List (String × String)
deriving DecidableEq

/-- The `_Crawl4AIResponse` constructor: `html or ""` and `status_code or 0`. -/
def mkCrawl4AIResponse (html : Option String) (status_code : Option Nat)
    (response_headers : List (String × String)) : Crawl4AIResponse :=
  { html := html.getD (""),
    status_code := pyOrNat status_code 0,
    response_headers := response_headers }

/-- The Python exception kinds that reach the retry logic.  `crawlError`
carries the optional HTTP status and the optional partial response, as the
`CrawlError` class does; `runtimeError` is the kind crawl4ai raises on
transient navigation failures; `retryError` is tenacity's wrapper after
attempts are exhausted. -/
inductive PyErr where
  | crawlError (message : String) (status_code : Option Nat)
      (response : Option Crawl4AIResponse)
  | osError (message : String)
  | timeoutError (message : String)
  | connectionError (message : String)
  | asyncioTimeoutError (message : String)
  | runtimeError (message : String)
  | valueError (message : String)
  | keyError (message : String)
  | typeError (message : String)
  | importError (message : String)
  | retryError (last : PyErr)
deriving DecidableEq

/-- The `retry_if_exception_type` tuple of `download_url_with_retry`:
CrawlError, OSError, TimeoutError, ConnectionError, asyncio.TimeoutError,
RuntimeError.  Membership depends only on the kind, never on a carried
status code. -/
def isRetryable : PyErr → Bool
  | PyErr.crawlError _ _ _ => true
  | PyErr.osError _ => true
  | PyErr.timeoutError _ => true
  | PyErr.connectionError _ => true
  | PyErr.asyncioTimeoutError _ => true
  | PyErr.runtimeError _ => true
  | _ => false

/-- Retry attempt cap of the downloader. -/
def DEFAULT_RETRY_ATTEMPTS : Nat := 6

/-- Embedding of `raise_for_status`: an HTTP status in `[400, 600)` raises a
`CrawlError` carrying the status and the response itself. -/
def raise_for_status (resp : Crawl4AIResponse) : Except PyErr Crawl4AIResponse :=
  if 400 ≤ resp.status_code ∧ resp.status_code < 600 then
    Except.error (PyErr.crawlError (("HTTP ") ++ toString resp.status_code)
      (some resp.status_code) (some resp))
  else Except.ok resp

/-- Outcome fields of one `crawler.arun` call that `_crawl_url_async` reads. -/
structure CrawlResult where
  success : Bool
  error_message : Option String
  status_code : Option Nat
  html : Option String
  response_headers : List (String × String)

/-- Embedding of `_crawl_url_async` given the outcome of the underlying
crawl: an unsuccessful crawl raises `CrawlError` with the reported status and
the partial response; a successful crawl builds the response with
`status_code or 200` and runs `raise_for_status` on it. -/
def _crawl_url_async (result : CrawlResult) : Except PyErr Crawl4AIResponse :=
  if result.success = false then
    Except.error (PyErr.crawlError
      (pyOrStr (result.error_message.getD ("")) ("Crawl failed"))
      result.status_code
      (some (mkCrawl4AIResponse result.html (some (pyOrNat result.status_code 0))
        result.response_headers)))
  else
    raise_for_status
      (mkCrawl4AIResponse result.html (some (pyOrNat result.status_code 200))
        result.response_headers)

/-- The tenacity loop of `download_url_with_retry`: run attempts (the outcome
of attempt `k` is `att k`) until success, a non-retryable error (re-raised at
once), or the attempt cap (then tenacity raises `RetryError`).  Returns the
final outcome and the number of attempts consumed.  The zero-fuel arm is
unreachable for a positive cap. -/
def tenacityGo (att : Nat → Except PyErr Crawl4AIResponse) :
    Nat → Nat → Except PyErr Crawl4AIResponse × Nat
  | 0, k => (Except.error (PyErr.retryError (PyErr.valueError (""))), k)
  | remaining + 1, k =>
      match att k with
      | Except.ok r => (Except.ok r, k + 1)
      | Except.error e =>
          if isRetryable e then
            if remaining = 0 then (Except.error (PyErr.retryError e), k + 1)
            else tenacityGo att remaining (k + 1)
          else (Except.error e, k + 1)

/-- Embedding of `download_url_with_retry`: the tenacity loop with the
configured attempt cap. -/
def download_url_with_retry (att : Nat → Except PyErr Crawl4AIResponse) :
    Except PyErr Crawl4AIResponse × Nat :=
  tenacityGo att DEFAULT_RETRY_ATTEMPTS 0

/- Proxy resolution and the parallel orchestrator (downloader.py). -/

/-- An opaque crawl4ai `ProxyConfig`; `fromString` stands for
`ProxyConfig.from_string`. -/
inductive ProxyCfg where
  | fromString (s : String)
deriving DecidableEq

/-- An element of a proxy pool list: a proxy string or an already-built
config. -/
inductive ProxyItem where
  | str (s : String)
  | cfg (c : ProxyCfg)
deriving DecidableEq

/-- The proxy argument forms handled by this model: `None`, a list, or a
single config.  The string/`Path` form of `_resolve_proxy` reads the proxies
file from disk and is outside this filesystem-free model; `ProxyConfig` is
taken as importable. -/
inductive ProxyArgKind where
  | noneArg
  | listArg (items : List ProxyItem)
  | cfgArg (c : ProxyCfg)

/-- Embedding of `_resolve_proxy` on the modelled argument forms: `None`
stays `None`; an empty list stays `None`; a non-empty list is indexed
round-robin by `index % len`, converting a string item through
`ProxyConfig.from_string`; a single config is returned as is. -/
def _resolve_proxy : ProxyArgKind → Nat → Option ProxyCfg
  | ProxyArgKind.noneArg, _ => none
  | ProxyArgKind.listArg items, index =>
      if items.isEmpty then none
      else
        match items[(index % items.length)]? with
        | some (ProxyItem.str s) => some (ProxyCfg.fromString s)
        | some (ProxyItem.cfg c) => some c
        | none => none
  | ProxyArgKind.cfgArg c, _ => some c

/-- One orchestrator task: ordinal index, URL, resolved proxy. -/
structure FetchTask where
  idx : Nat
  url : String
  proxy : Option ProxyCfg
deriving DecidableEq

/-- The task list of `parallel_download_urls`:
`[(i, url, _resolve_proxy(proxies, i)) for i, url in enumerate(urls)]`. -/
def buildTasks (urls : List String) (proxies : ProxyArgKind) : List FetchTask :=
  urls.enum.map (fun p => { idx := p.1, url := p.2, proxy := _resolve_proxy proxies p.1 })

/-- Embedding of the nested `_download_one`: run the retried download for the
task and turn any raised exception into `None`. -/
def _download_one (outcome : Except PyErr Crawl4AIResponse × Nat) :
    Option Crawl4AIResponse :=
  match outcome.1 with
  | Except.ok r => some r
  | Except.error _ => none

/-- Embedding of `parallel_download_urls`.  `att i k` is the outcome of
attempt `k` of the task at index `i` (the network is abstracted into these
outcomes; the proxy and headers only influence them).  `joblib.Parallel`
returns worker results in task submission order for every backend and worker
count, so `n_jobs` and the progress-bar branch do not change the value; the
progress branch wraps `_download_one` and returns the same result list. -/
def parallel_download_urls (urls : List String) (n_jobs : Nat)
    (proxies : ProxyArgKind)
    (att : Nat → Nat → Except PyErr Crawl4AIResponse) : List (Option Crawl4AIResponse) :=
  (buildTasks urls proxies).map
    (fun t => _download_one (download_url_with_retry (att t.idx)))

theorem tenacityGo_snd_le (att : Nat → Except PyErr Crawl4AIResponse) :
    ∀ r k, k ≤ (tenacityGo att r k).2 := by
  intro r
  induction r with
  | zero => intro k; simp [tenacityGo]
  | succ r ih =>
    intro k
    simp only [tenacityGo]
    cases hatt : att k with
    | ok v => simp
    | error e =>
      by_cases hr : isRetryable e
      · simp only [hr, if_true]
        by_cases hz : r = 0
        · simp [hz]
        · rw [if_neg hz]
          exact Nat.le_trans (Nat.le_succ k) (ih (k + 1))
      · simp [hr]

theorem tenacityGo_snd_succ_le (att : Nat → Except PyErr Crawl4AIResponse)
    (r k : Nat) : k + 1 ≤ (tenacityGo att (r + 1) k).2 := by
  simp only [tenacityGo]
  cases hatt : att k with
  | ok v => simp
  | error e =>
    by_cases hr : isRetryable e
    · simp only [hr, if_true]
      by_cases hz : r = 0
      · simp [hz]
      · rw [if_neg hz]
        exact tenacityGo_snd_le att r (k + 1)
    · simp [hr]

/-- Claim C6: with the first attempt failing, a non-retryable error kind is
re-raised at once after exactly one attempt; a retryable kind leads to at
least a second attempt; and retryability of a fetch error never depends on
the carried status code or response. -/
theorem download_url_with_retry_classification
    (att : Nat → Except PyErr Crawl4AIResponse) (e : PyErr)
    (h0 : att 0 = Except.error e) :
    (isRetryable e = false → download_url_with_retry att = (Except.error e, 1)) ∧
    (isRetryable e = true → 2 ≤ (download_url_with_retry att).2) ∧
    (∀ m s r m' s' r',
      isRetryable (PyErr.crawlError m s r) = isRetryable (PyErr.crawlError m' s' r')) := by
  refine ⟨?_, ?_, fun _ _ _ _ _ _ => rfl⟩
  · intro hr
    show tenacityGo att (5 + 1) 0 = _
    simp only [tenacityGo, h0, hr]
    simp
  · intro hr
    show 2 ≤ (tenacityGo att (5 + 1) 0).2
    simp only [tenacityGo, h0, hr, if_true]
    rw [if_neg (by decide : ¬(5 = 0))]
    exact tenacityGo_snd_succ_le att 4 1

/-- Claim C6 witness: a value error on the first attempt propagates at once
with exactly one attempt consumed. -/
theorem download_url_with_retry_classification_witness :
    download_url_with_retry (fun _ => Except.error (PyErr.valueError ("bad"))) =
      (Except.error (PyErr.valueError ("bad")), 1) :=
  (download_url_with_retry_classification
    (fun _ => Except.error (PyErr.valueError ("bad")))
    (PyErr.valueError ("bad")) rfl).1 rfl

theorem pyOrNat_some_of_ne_zero (n d : Nat) (h : n ≠ 0) : pyOrNat (some n) d = n := by
  cases n with
  | zero => exact absurd rfl h
  | succ m => rfl

theorem pyOrNat_ne_zero (a : Option Nat) (d : Nat) (hd : d ≠ 0) :
    pyOrNat a d ≠ 0 := by
  cases a with
  | none => exact hd
  | some n =>
    cases n with
    | zero => exact hd
    | succ m => simp [pyOrNat]

/-- Claim C7: a fetch whose obtained status lies in `[400, 600)` raises a
`CrawlError` carrying that status and a (partial) response, and a successful
crawl with an effective status outside `[400, 600)` returns the response
built from the crawl outcome without raising. -/
theorem crawl_url_async_status (result : CrawlResult) :
    (∀ s, result.status_code = some s → 400 ≤ s → s < 600 →
      ∃ m resp, _crawl_url_async result =
        Except.error (PyErr.crawlError m (some s) (some resp))) ∧
    (result.success = true →
      ¬(400 ≤ pyOrNat result.status_code 200 ∧ pyOrNat result.status_code 200 < 600) →
      _crawl_url_async result = Except.ok (mkCrawl4AIResponse result.html
        (some (pyOrNat result.status_code 200)) result.response_headers)) := by
  constructor
  · intro s hs h4 h6
    have hs0 : s ≠ 0 := by
      intro h
      rw [h] at h4
      exact absurd h4 (by decide)
    cases hsucc : result.success with
    | false =>
      refine ⟨pyOrStr (result.error_message.getD ("")) ("Crawl failed"),
        mkCrawl4AIResponse result.html (some (pyOrNat result.status_code 0))
          result.response_headers, ?_⟩
      simp [_crawl_url_async, hsucc, hs]
    | true =>
      have heff : pyOrNat result.status_code 200 = s := by
        rw [hs]
        exact pyOrNat_some_of_ne_zero s 200 hs0
      have hstat : (mkCrawl4AIResponse result.html
          (some (pyOrNat result.status_code 200)) result.response_headers).status_code
          = s := by
        show pyOrNat (some (pyOrNat result.status_code 200)) 0 = s
        rw [heff]
        exact pyOrNat_some_of_ne_zero s 0 hs0
      refine ⟨("HTTP ") ++ toString s,
        mkCrawl4AIResponse result.html (some (pyOrNat result.status_code 200))
          result.response_headers, ?_⟩
      have hcond : result.success = false ↔ False := by simp [hsucc]
      simp only [_crawl_url_async, hsucc]
      rw [if_neg (by simp)]
      simp only [raise_for_status, hstat]
      rw [if_pos ⟨h4, h6⟩]
  · intro hsucc hrange
    simp only [_crawl_url_async, hsucc]
    rw [if_neg (by simp)]
    have hne : pyOrNat result.status_code 200 ≠ 0 :=
      pyOrNat_ne_zero result.status_code 200 (by decide)
    have hstat : (mkCrawl4AIResponse result.html
        (some (pyOrNat result.status_code 200)) result.response_headers).status_code
        = pyOrNat result.status_code 200 := by
      show pyOrNat (some (pyOrNat result.status_code 200)) 0 = _
      exact pyOrNat_some_of_ne_zero _ 0 hne
    simp only [raise_for_status, hstat]
    rw [if_neg hrange]

/-- Claim C7 witness: a successful crawl that obtained status 404 raises a
fetch error carrying 404 and a response. -/
theorem crawl_url_async_status_witness :
    ∃ m resp, _crawl_url_async
      { success := true, error_message := none, status_code := some 404,
        html := some ("error page"), response_headers := [] } =
      Except.error (PyErr.crawlError m (some 404) (some resp)) :=
  (crawl_url_async_status
    { success := true, error_message := none, status_code := some 404,
      html := some ("error page"), response_headers := [] }).1
    404 rfl (by decide) (by decide)

theorem download_one_toOption (x : Except PyErr Crawl4AIResponse × Nat) :
    _download_one x = x.1.toOption := by
  cases h : x.1 with
  | ok r => simp [_download_one, Except.toOption, h]
  | error e => simp [_download_one, Except.toOption, h]

/-- Claim C1: the orchestrator output has exactly one slot per input URL, and
slot `i` holds the response of the retried download of `urls[i]` when that
download eventually succeeds and an explicit `none` when it fails with any
exception — independently of the worker count, the proxy argument, and the
outcomes of the other tasks, so one failing task never raises and never
shifts the other results. -/
theorem parallel_download_urls_alignment (urls : List String) (n_jobs : Nat)
    (proxies : ProxyArgKind)
    (att : Nat → Nat → Except PyErr Crawl4AIResponse) :
    (parallel_download_urls urls n_jobs proxies att).length = urls.length ∧
    ∀ i, i < urls.length →
      (parallel_download_urls urls n_jobs proxies att)[i]? =
        some ((download_url_with_retry (att i)).1.toOption) := by
  constructor
  · simp [parallel_download_urls, buildTasks, List.enum_length]
  · intro i hi
    show ((urls.enum.map
      (fun p => (⟨p.1, p.2, _resolve_proxy proxies p.1⟩ : FetchTask))).map
      (fun t => _download_one (download_url_with_retry (att t.idx))))[i]? = _
    rw [List.getElem?_map, List.getElem?_map, List.getElem?_enum,
      List.getElem?_eq_getElem hi]
    exact congrArg some (download_one_toOption _)

/-- Concrete 5-URL input for the claim C1 witness. -/
def urlsFive : List String :=
  [("u0"), ("u1"), ("u2"), ("u3"), ("u4")]

/-- Concrete successful response for the claim C1 witness. -/
def okResponse : Crawl4AIResponse :=
  { html := ("<html></html>"), status_code := 200, response_headers := [] }

/-- Concrete attempt outcomes for the claim C1 witness: the task at index 2
fails every attempt with a retryable navigation failure, every other task
succeeds immediately. -/
def attIdxTwoFails : Nat → Nat → Except PyErr Crawl4AIResponse
  | 2, _ => Except.error (PyErr.runtimeError ("net::ERR_CONNECTION_REFUSED"))
  | _, _ => Except.ok okResponse

/-- Claim C1 witness: with 5 URLs whose task 2 always fails, the output has
length 5, slot 2 is `none`, and slots 0 and 4 are populated. -/
theorem parallel_download_urls_alignment_witness :
    (parallel_download_urls urlsFive 4 ProxyArgKind.noneArg attIdxTwoFails).length = 5 ∧
    (parallel_download_urls urlsFive 4 ProxyArgKind.noneArg attIdxTwoFails)[2]? =
      some none ∧
    (parallel_download_urls urlsFive 4 ProxyArgKind.noneArg attIdxTwoFails)[0]? =
      some (some okResponse) ∧
    (parallel_download_urls urlsFive 4 ProxyArgKind.noneArg attIdxTwoFails)[4]? =
      some (some okResponse) := by
  obtain ⟨h1, h2⟩ :=
    parallel_download_urls_alignment urlsFive 4 ProxyArgKind.noneArg attIdxTwoFails
  exact ⟨h1, (h2 2 (by decide)).trans (by decide),
    (h2 0 (by decide)).trans (by decide), (h2 4 (by decide)).trans (by decide)⟩

/-- The per-item conversion step of `_resolve_proxy` on list items: a string
goes through `ProxyConfig.from_string`, a config is used as is. -/
def proxyItemToCfg : ProxyItem → ProxyCfg
  | ProxyItem.str s => ProxyCfg.fromString s
  | ProxyItem.cfg c => c

/-- Claim C9: with a non-empty proxy pool, the task built for `urls[i]`
carries the pool item at position `i mod len(pool)` (converted to a config);
with an empty pool or no proxy argument, every task carries no proxy. -/
theorem proxy_round_robin_assignment (items : List ProxyItem) (urls : List String)
    (i : Nat) (hne : items ≠ []) (hi : i < urls.length) :
    (∃ p, items[(i % items.length)]? = some p ∧
      ((buildTasks urls (ProxyArgKind.listArg items)).map FetchTask.proxy)[i]? =
        some (some (proxyItemToCfg p))) ∧
    (∀ j, _resolve_proxy ProxyArgKind.noneArg j = none) ∧
    (∀ j, _resolve_proxy (ProxyArgKind.listArg []) j = none) := by
  refine ⟨?_, fun j => rfl, fun j => rfl⟩
  have hlen : 0 < items.length := List.length_pos.mpr hne
  have hmod : i % items.length < items.length := Nat.mod_lt _ hlen
  refine ⟨items.get ⟨i % items.length, hmod⟩, List.getElem?_eq_getElem hmod, ?_⟩
  show ((urls.enum.map
    (fun p => (⟨p.1, p.2, _resolve_proxy (ProxyArgKind.listArg items) p.1⟩ : FetchTask))).map
    FetchTask.proxy)[i]? = _
  rw [List.getElem?_map, List.getElem?_map, List.getElem?_enum,
    List.getElem?_eq_getElem hi]
  have hempty : items.isEmpty = false := by
    simp [List.isEmpty_iff, hne]
  show some (_resolve_proxy (ProxyArgKind.listArg items) i) = _
  simp only [_resolve_proxy, hempty, Bool.false_eq_true, if_false]
  rw [List.getElem?_eq_getElem hmod]
  cases hp : items.get ⟨i % items.length, hmod⟩ with
  | str s =>
    have : items[i % items.length] = ProxyItem.str s := hp
    simp [this, proxyItemToCfg]
  | cfg c =>
    have : items[i % items.length] = ProxyItem.cfg c := hp
    simp [this, proxyItemToCfg]

/-- Claim C9 witness: with a 2-element pool and 5 URLs, task 3 is assigned
the pool item at position 3 mod 2 = 1. -/
theorem proxy_round_robin_assignment_witness :
    ∃ p, [ProxyItem.str ("h1:80:u:p"), ProxyItem.str ("h2:80:u:p")][(3 % 2)]? = some p ∧
      ((buildTasks urlsFive (ProxyArgKind.listArg
        [ProxyItem.str ("h1:80:u:p"), ProxyItem.str ("h2:80:u:p")])).map
        FetchTask.proxy)[3]? = some (some (proxyItemToCfg p)) :=
  (proxy_round_robin_assignment
    [ProxyItem.str ("h1:80:u:p"), ProxyItem.str ("h2:80:u:p")] urlsFive 3
    (by decide) (by decide)).1

/- Resume-key iteration (cdx_api.py, CDXClient.iter_all). -/

/-- One index-service response as `iter_all` sees it: the parsed records of
the batch and the optional resume key. -/
structure SvcResponse where
  records : List CDXRecord
  resume_key : Option String := none

/-- Python truthiness of the resume key: present and non-empty. -/
def pyTruthyKey : Option String → Bool
  | none => false
  | some s => !s.isEmpty

/-- The break test of the `iter_all` loop:
`not response.resume_key or len(response) < batch_size`. -/
def stopBatch (resp : SvcResponse) (batch_size : Nat) : Bool :=
  !pyTruthyKey resp.resume_key || decide (resp.records.length < batch_size)

/-- The `while True` loop of `iter_all`.  The service is abstracted as the
sequence `svc` of responses to the successive search calls; `i` is the call
number, `rk` the resume key passed to that call (`None` on the first), and
`fuel` bounds the unrolling (`none` means the loop did not finish within
`fuel` calls).  The result collects every yielded record together with the
log of resume keys passed to the calls made, so the number of calls is the
log length. -/
def iterAllGo (svc : Nat → SvcResponse) (batch_size : Nat) :
    Nat → Nat → Option String → Option (List CDXRecord × List (Option String))
  | 0, _, _ => none
  | fuel + 1, i, rk =>
      if stopBatch (svc i) batch_size then
        some ((svc i).records, [rk])
      else
        match iterAllGo svc batch_size fuel (i + 1) (svc i).resume_key with
        | none => none
        | some (recs, log) => some ((svc i).records ++ recs, rk :: log)

/-- Embedding of `CDXClient.iter_all`: start with no resume key at the first
call. -/
def iter_all (svc : Nat → SvcResponse) (batch_size fuel : Nat) :
    Option (List CDXRecord × List (Option String)) :=
  iterAllGo svc batch_size fuel 0 none

theorem iterAllGo_spec (svc : Nat → SvcResponse) (b : Nat) :
    ∀ (k s fuel : Nat) (rk : Option String),
      (∀ j, j < k → stopBatch (svc (s + j)) b = false) →
      stopBatch (svc (s + k)) b = true →
      k + 1 ≤ fuel →
      iterAllGo svc b fuel s rk =
        some (((List.range (k + 1)).map (fun i => (svc (s + i)).records)).flatten,
          rk :: (List.range k).map (fun i => (svc (s + i)).resume_key)) := by
  intro k
  induction k with
  | zero =>
    intro s fuel rk hk hstop hfuel
    cases fuel with
    | zero => exact absurd hfuel (by decide)
    | succ f =>
      have hstop0 : stopBatch (svc s) b = true := by
        have := hstop
        simpa using this
      simp [iterAllGo, hstop0, List.flatten]
  | succ k ih =>
    intro s fuel rk hk hstop hfuel
    cases fuel with
    | zero => exact absurd hfuel (by simp)
    | succ f =>
      have hgo : stopBatch (svc s) b = false := by
        have := hk 0 (Nat.succ_pos k)
        simpa using this
      have hk2 : ∀ j, j < k → stopBatch (svc (s + 1 + j)) b = false := by
        intro j hj
        have := hk (j + 1) (Nat.succ_lt_succ hj)
        rw [show s + (j + 1) = s + 1 + j from by omega] at this
        exact this
      have hstop2 : stopBatch (svc (s + 1 + k)) b = true := by
        rw [show s + 1 + k = s + (k + 1) from by omega]
        exact hstop
      have hfuel2 : k + 1 ≤ f := Nat.lt_succ_iff.mp hfuel
      have hrec := ih (s + 1) f ((svc s).resume_key) hk2 hstop2 hfuel2
      simp only [iterAllGo, hgo, Bool.false_eq_true, if_false, hrec]
      have hshift : ∀ (g : Nat → List CDXRecord),
          (List.range (k + 1)).map (fun i => g (s + 1 + i)) =
            (List.range (k + 1)).map (fun i => g (s + (i + 1))) := by
        intro g
        apply List.map_congr_left
        intro i hi
        rw [show s + 1 + i = s + (i + 1) from by omega]
      congr 1
      congr 1
      · rw [List.range_succ_eq_map (k + 1), List.map_cons, List.map_map]
        rw [show ((fun i => (svc (s + i)).records) ∘ Nat.succ) =
          (fun i => (svc (s + (i + 1))).records) from rfl]
        rw [← hshift (fun j => (svc j).records)]
        simp [List.flatten]
      · rw [List.range_succ_eq_map k, List.map_cons, List.map_map]
        rw [show ((fun i => (svc (s + i)).resume_key) ∘ Nat.succ) =
          (fun i => (svc (s + (i + 1))).resume_key) from rfl]
        have hshift2 : (List.range k).map (fun i => (svc (s + 1 + i)).resume_key) =
            (List.range k).map (fun i => (svc (s + (i + 1))).resume_key) := by
          apply List.map_congr_left
          intro i hi
          rw [show s + 1 + i = s + (i + 1) from by omega]
        rw [← hshift2]
        simp

/-- Claim C4: when the first batch satisfying the break test (no truthy
resume token, or fewer than `batch_size` records) is the one at call index
`k`, the iteration makes exactly `k + 1` search calls, yields every record of
every batch up to and including that one in order, passes no resume key on
the first call, and passes the resume key of batch `i` on call `i + 1`. -/
theorem iter_all_terminates (svc : Nat → SvcResponse) (batch_size k fuel : Nat)
    (hk : ∀ j, j < k → stopBatch (svc j) batch_size = false)
    (hstop : stopBatch (svc k) batch_size = true)
    (hfuel : k + 1 ≤ fuel) :
    iter_all svc batch_size fuel =
      some (((List.range (k + 1)).map (fun i => (svc i).records)).flatten,
        none :: (List.range k).map (fun i => (svc i).resume_key)) := by
  have h1 : ∀ j, j < k → stopBatch (svc (0 + j)) batch_size = false := by
    intro j hj
    rw [Nat.zero_add]
    exact hk j hj
  have h2 : stopBatch (svc (0 + k)) batch_size = true := by
    rw [Nat.zero_add]
    exact hstop
  have h := iterAllGo_spec svc batch_size k 0 fuel none h1 h2 hfuel
  have e1 : (List.range (k + 1)).map (fun i => (svc (0 + i)).records) =
      (List.range (k + 1)).map (fun i => (svc i).records) :=
    List.map_congr_left (fun i _ => by rw [Nat.zero_add])
  have e2 : (List.range k).map (fun i => (svc (0 + i)).resume_key) =
      (List.range k).map (fun i => (svc i).resume_key) :=
    List.map_congr_left (fun i _ => by rw [Nat.zero_add])
  show iterAllGo svc batch_size fuel 0 none = _
  rw [h, e1, e2]

/-- Concrete index service for the claim C4 witness: two full batches of two
records carrying resume tokens, then a short tokenless batch. -/
def svcThreeBatches : Nat → SvcResponse
  | 0 => { records := [{ timestamp := ("t1") }, { timestamp := ("t2") }]
           resume_key := some ("K1") }
  | 1 => { records := [{ timestamp := ("t3") }, { timestamp := ("t4") }]
           resume_key := some ("K2") }
  | _ => { records := [{ timestamp := ("t5") }], resume_key := none }

/-- Claim C4 witness: with batch size 2 the iteration finishes after exactly
3 calls, yields 2*2 + 1 records, and threads the resume keys of batches 1
and 2 into calls 2 and 3. -/
theorem iter_all_terminates_witness :
    ∃ out, iter_all svcThreeBatches 2 3 = some out ∧
      out.1.length = 2 * 2 + 1 ∧
      out.2.length = 3 ∧
      out.2 = [none, some ("K1"), some ("K2")] := by
  refine ⟨_, iter_all_terminates svcThreeBatches 2 2 3 ?_ ?_ ?_, ?_, ?_, ?_⟩
  · decide
  · decide
  · decide
  · decide
  · decide
  · decide

/-- Claim C5 witness: on an empty response both oldest and latest are absent. -/
theorem get_wayback_metadata_spec_witness :
    (get_wayback_metadata ("a16z.com") []).oldest = none ∧
    (get_wayback_metadata ("a16z.com") []).latest = none :=
  (get_wayback_metadata_spec ("a16z.com") []).2.2.2.2.1 rfl

/-- Claim C8 witness: a well-formed fast-fetch archive URL is of the accepted
shape, via the characterization applied at a concrete input. -/
theorem convert_to_id_url_error_characterization_witness :
    WaybackShape
      (("https://web.archive.org/web/20260101020758id_/https://a16z.com/" : String)).data :=
  (convert_to_id_url_error_characterization.1
    ("https://web.archive.org/web/20260101020758id_/https://a16z.com/")).mp (by decide)
